import Mathlib

/-!
Shallow embedding of the whatsapp_transcriber_go transcription dispatch
pipeline: sender filtering (whatsapp_handler.go / groq_transcriber.go,
`loadExcludedNumbers`, `handleMessage`), audio retrieval and reply emission
(`processAudioMessage`), the Groq multipart backend
(`TranscribeAudioGroq`, groq_transcriber.go) and the Cloudflare JSON
backend (`CFTranscriber.Transcribe`, `CfTranscribe`, the unnamed source
file). Network and filesystem effects are modelled by explicit oracle
records (`HttpResp`, `World`, `StartupWorld`); every externally visible
action of a dispatch invocation is recorded in a trace of `Act`s.
-/

/-- JSON values as produced by Go's encoding/json decoder (numbers are
abstracted to integers; no claim depends on numeric payloads). -/
inductive Json where
  | null : Json
  | bool (b : Bool) : Json
  | num (n : Int) : Json
  | str (s : String) : Json
  | arr (xs : List Json) : Json
  | obj (fields : List (String × Json)) : Json

/-- Field lookup on a decoded JSON value: Go's `m["k"]` on a
`map[string]interface\x7b\x7d`, `none` when the value is not an object or
the key is absent. -/
def jsonLookup : Json → String → Option Json
  | .obj fields, k => fields.lookup k
  | _, _ => none

/-- One part of a multipart/form-data body: either a file part
(`CreateFormFile` + `Write`) or a plain field (`WriteField`). -/
inductive FormPart where
  | file (fieldName filename : String) (data : List Nat) : FormPart
  | field (name value : String) : FormPart
deriving DecidableEq

/-- Externally visible effects of one dispatch invocation. -/
inductive Act where
  /-- `http.Get(directPath)`: a raw, non-decrypting HTTP GET. -/
  | rawHttpGet (url : String) : Act
  /-- The transport's decrypting media fetch (`client.DownloadToFile`). -/
  | decryptFetch (ref : String) : Act
  /-- `os.CreateTemp` succeeded, creating the file at `path`. -/
  | createTempFile (path : String) : Act
  /-- `io.Copy` wrote the downloaded bytes into the file at `path`. -/
  | writeFile (path : String) : Act
  /-- `os.Remove(path)`. -/
  | removeFile (path : String) : Act
  /-- An HTTP POST of a multipart form (Groq backend). -/
  | postMultipart (url : String) (form : List FormPart) : Act
  /-- An HTTP POST of a JSON payload (Cloudflare backend). -/
  | postJson (url : String) (payload : List (String × Json)) : Act
  /-- `client.SendMessage(chatID, replyText)`. -/
  | sendReply (chatID text : String) : Act

/-- Is this action a call to a transcription backend? -/
def isBackendCall : Act → Bool
  | .postMultipart _ _ => true
  | .postJson _ _ => true
  | _ => false

/-- Is this action an outgoing reply? -/
def isReply : Act → Bool
  | .sendReply _ _ => true
  | _ => false

/-- Is this action a raw (non-decrypting) HTTP GET? -/
def isRawHttpGet : Act → Bool
  | .rawHttpGet _ => true
  | _ => false

/-- Is this action the transport's decrypting fetch? -/
def isDecryptFetch : Act → Bool
  | .decryptFetch _ => true
  | _ => false

/-- Is this action the creation of a temporary file? -/
def isCreateTemp : Act → Bool
  | .createTempFile _ => true
  | _ => false

/-- Is this action a file removal? -/
def isRemoveFile : Act → Bool
  | .removeFile _ => true
  | _ => false

/-- An HTTP response: status code, raw body text, and the body's JSON
parse (`none` when the body is not valid JSON). -/
structure HttpResp where
  status : Nat
  body : String
  json : Option Json

/-- The audio message attached to an inbound event
(`evt.Message.GetAudioMessage()`): its media URL and declared length. -/
structure AudioMessage where
  url : String
  fileLength : Nat

/-- An inbound message event (`events.Message`): group flag, sender user
id, chat id, and the optional audio message. -/
structure Event where
  isGroup : Bool
  senderUser : String
  chatID : String
  audio : Option AudioMessage

/-- Environment variables read by the backends (`os.Getenv`); the empty
string means the variable is unset, exactly as in Go. -/
structure Env where
  groqApiKey : String
  cfAccountId : String
  cfApiKey : String

/-- Oracle for the effectful steps of one dispatch invocation: outcome of
the raw HTTP GET (downloaded bytes or a network error), of `os.CreateTemp`
(the fresh file's path or an error), of `io.Copy`, the Groq backend's HTTP
outcome, and whether `client.SendMessage` succeeds. -/
structure World where
  httpGet : Except String (List Nat)
  createTemp : Except String String
  copyOk : Bool
  groqResp : Except String HttpResp
  sendOk : Bool

/-! ## ExclusionFilter (whatsapp_handler.go: loadExcludedNumbers) -/

/-- Go's `unicode.IsSpace` restricted to the ASCII whitespace characters
(space, tab, newline, vertical tab, form feed, carriage return). -/
def goIsSpace (c : Char) : Bool :=
  c = ' ' || c = '\t' || c = '\n' || c = '\x0b' || c = '\x0c' || c = '\r'

/-- Go's `strings.TrimSpace`: drop whitespace from both ends. -/
def trimSpace (s : String) : String :=
  String.mk (((s.toList.dropWhile goIsSpace).reverse.dropWhile goIsSpace).reverse)

/-- Split a character list at every occurrence of `c` (Go's
`strings.Split` with a one-character separator). -/
def splitOnChar (c : Char) : List Char → List (List Char)
  | [] => [[]]
  | x :: xs =>
    match splitOnChar c xs with
    | [] => if x = c then [[], []] else [[x]]
    | y :: ys => if x = c then [] :: y :: ys else (x :: y) :: ys

/-- The lines of the exclusion source file: `os.ReadFile` fails (absent or
unreadable file) gives no lines, otherwise the content is split on
newlines (`strings.Split(string(data), "\n")`). -/
def fileLines : Option String → List String
  | none => []
  | some data => (splitOnChar '\n' data.toList).map String.mk

/-- `loadExcludedNumbers`: each line is trimmed of surrounding whitespace
and kept when non-blank; an absent/unreadable file yields the empty set
(warning only). The Go map with `true` values is modelled as the list of
its keys. -/
def loadExcludedNumbers (fileContent : Option String) : List String :=
  ((fileLines fileContent).map (fun line => trimSpace line)).filter
    (fun line => line ≠ "")

/-- The exclusion check `EXCLUDED_NUMBERS[sender]`: Go map indexing
returns `false` for absent keys. -/
def isExcluded (excluded : List String) (sender : String) : Bool :=
  excluded.contains sender

/-! ## Backend B: Groq (groq_transcriber.go: TranscribeAudioGroq) -/

/-- The fixed style-guidance prompt `WHISPER_PROMPT`. -/
def WHISPER_PROMPT : String :=
  "Transcreva com precisão, preservando enunciados conforme falados. Corrija erros ortográficos comuns sem alterar a intenção original. Use pontuação e capitalização de forma natural para facilitar a leitura. Foda-se. Amorzinho."

/-- `filepath.Base` for slash-separated paths: last non-empty component;
"." for the empty path, "/" when the path is all slashes. -/
def baseName (path : String) : String :=
  if path = "" then "."
  else
    match (((splitOnChar '/' path.toList).map String.mk).filter
        (fun c => c ≠ "")).getLast? with
    | some c => c
    | none => "/"

/-- The Groq transcription endpoint URL. -/
def groqEndpoint : String := "https://api.groq.com/v1/audio/transcriptions"

/-- The multipart form built by `TranscribeAudioGroq`: file part (raw
bytes, base filename), fixed model, prompt and language only when
non-empty, `response_format=json`, `temperature=0.0`, in source order. -/
def buildGroqForm (fileData : List Nat) (filename prompt language : String) :
    List FormPart :=
  [FormPart.file "file" filename fileData,
   FormPart.field "model" "whisper-large-v3"]
  ++ (if prompt ≠ "" then [FormPart.field "prompt" prompt] else [])
  ++ (if language ≠ "" then [FormPart.field "language" language] else [])
  ++ [FormPart.field "response_format" "json",
      FormPart.field "temperature" "0.0"]

/-- Go's `json.Decode` into `struct \x7b Text string \x7d`: a missing
`text` key leaves the zero value `""`; a non-object body or a non-string
`text` value is a decode error. -/
def groqDecode : Json → Except String String
  | .obj fields =>
    match fields.lookup "text" with
    | some (.str s) => Except.ok s
    | none => Except.ok ""
    | some _ => Except.error "json: cannot unmarshal response"
  | _ => Except.error "json: cannot unmarshal response"

/-- `TranscribeAudioGroq(audioPath, prompt, language)`. `apiKey` is the
value of `GROQ_API_KEY`; `fileData` the result of `os.ReadFile(audioPath)`
(`none` when unreadable); `resp` the HTTP outcome of the POST. Returns
the trace of performed actions and the result. -/
def TranscribeAudioGroq (apiKey : String) (fileData : Option (List Nat))
    (audioPath prompt language : String) (resp : Except String HttpResp) :
    List Act × Except String String :=
  if apiKey = "" then
    ([], Except.error "GROQ_API_KEY not set in environment")
  else
    match fileData with
    | none => ([], Except.error "audio file not found")
    | some data =>
      let form := buildGroqForm data (baseName audioPath) prompt language
      match resp with
      | Except.error e => ([Act.postMultipart groqEndpoint form], Except.error e)
      | Except.ok r =>
        if r.status ≠ 200 then
          ([Act.postMultipart groqEndpoint form],
           Except.error ("transcription failed: " ++ r.body))
        else
          match r.json with
          | none =>
            ([Act.postMultipart groqEndpoint form],
             Except.error "json: cannot unmarshal response")
          | some j =>
            ([Act.postMultipart groqEndpoint form], groqDecode j)

/-! ## Backend A: Cloudflare (unnamed source: CFTranscriber) -/

/-- The base64 alphabet (standard encoding). -/
def base64Chars : List Char :=
  ("ABCDEFGHIJKLMNOPQRSTUVWXYZabcdefghijklmnopqrstuvwxyz0123456789+/").toList

/-- The base64 digit for a 6-bit value. -/
def b64Char (n : Nat) : Char := base64Chars.getD n 'A'

/-- `base64.StdEncoding.EncodeToString` over byte lists. -/
def base64Encode : List Nat → String
  | a :: b :: c :: rest =>
    let n := a % 256 * 65536 + b % 256 * 256 + c % 256
    String.mk [b64Char (n / 262144), b64Char (n / 4096 % 64),
               b64Char (n / 64 % 64), b64Char (n % 64)] ++ base64Encode rest
  | [a, b] =>
    let n := a % 256 * 65536 + b % 256 * 256
    String.mk [b64Char (n / 262144), b64Char (n / 4096 % 64),
               b64Char (n / 64 % 64), '=']
  | [a] =>
    let n := a % 256 * 65536
    String.mk [b64Char (n / 262144), b64Char (n / 4096 % 64), '=', '=']
  | [] => ""

/-- The Cloudflare transcriber configuration. -/
structure CFTranscriber where
  AccountID : String
  APIToken : String
  Model : String
  Language : String
  BaseURL : String

/-- `NewCFTranscriber`: defaults the model and language when empty and
derives the endpoint URL from account id and model. -/
def NewCFTranscriber (accountID apiToken model language : String) : CFTranscriber :=
  let model := if model = "" then "@cf/openai/whisper-large-v3-turbo" else model
  let language := if language = "" then "en" else language
  { AccountID := accountID
    APIToken := apiToken
    Model := model
    Language := language
    BaseURL := "https://api.cloudflare.com/client/v4/accounts/" ++ accountID
      ++ "/ai/run/" ++ model }

/-- The JSON payload built inside `CFTranscriber.Transcribe`: model from
the configuration, base64 audio, the per-call language argument defaulted
to "en" when empty, and `vad_filter: "false"`. -/
def cfPayload (cf : CFTranscriber) (encodedAudio language : String) :
    List (String × Json) :=
  [("model", Json.str cf.Model),
   ("audio", Json.str encodedAudio),
   ("language", Json.str (if language = "" then "en" else language)),
   ("vad_filter", Json.str "false")]

/-- `CFTranscriber.Transcribe(audioPath, language)`. `fileData` is the
result of reading the audio file (`none` when unreadable); `resp` the HTTP
outcome of the POST. Returns the action trace and the decoded JSON result
(Go decodes into a `map[string]interface\x7b\x7d`, so a non-object body is
a decode error). -/
def CFTranscriber.Transcribe (cf : CFTranscriber) (fileData : Option (List Nat))
    (language : String) (resp : Except String HttpResp) :
    List Act × Except String Json :=
  match fileData with
  | none => ([], Except.error "read failed")
  | some data =>
    let payload := cfPayload cf (base64Encode data) language
    match resp with
    | Except.error e => ([Act.postJson cf.BaseURL payload], Except.error e)
    | Except.ok r =>
      if r.status ≠ 200 then
        ([Act.postJson cf.BaseURL payload],
         Except.error ("transcription failed: " ++ r.body))
      else
        match r.json with
        | some (Json.obj fields) =>
          ([Act.postJson cf.BaseURL payload], Except.ok (Json.obj fields))
        | _ =>
          ([Act.postJson cf.BaseURL payload],
           Except.error "json: cannot unmarshal response")

/-- `CfTranscribe(audioPath, model, language)`: checks the `CF_ACCOUNT_ID`
and `CF_API_KEY` environment values, builds the transcriber, calls
`Transcribe`, and extracts `result.text` from the response, failing with a
shape error when the nested string field is absent. -/
def CfTranscribe (cfAccountId cfApiKey : String) (model language : String)
    (fileData : Option (List Nat)) (resp : Except String HttpResp) :
    List Act × Except String String :=
  if cfAccountId = "" ∨ cfApiKey = "" then
    ([], Except.error "please set CF_ACCOUNT_ID and CF_API_KEY environment variables")
  else
    let transcriber := NewCFTranscriber cfAccountId cfApiKey model language
    match transcriber.Transcribe fileData language resp with
    | (acts, Except.error e) => (acts, Except.error e)
    | (acts, Except.ok result) =>
      match jsonLookup result "result" with
      | some (Json.obj res) =>
        match res.lookup "text" with
        | some (Json.str text) => (acts, Except.ok text)
        | _ => (acts, Except.error "transcription text not found in response")
      | _ => (acts, Except.error "transcription text not found in response")

/-! ## DispatchPipeline (groq_transcriber.go draft: handleMessage,
processAudioMessage) -/

/-- `processAudioMessage`: raw GET of the audio URL, temp file creation in
MESSAGES_DIR, copy of the downloaded bytes, Groq transcription with the
fixed prompt and language "pt", temp file removal (success path only),
reply formatting and send. Returns the action trace and the Go error
result. -/
def processAudioMessage (env : Env) (w : World) (evt : Event) :
    List Act × Except String Unit :=
  match evt.audio with
  | none => ([], Except.error "audio message details not found")
  | some audioMsg =>
    match w.httpGet with
    | Except.error e => ([Act.rawHttpGet audioMsg.url], Except.error e)
    | Except.ok body =>
      match w.createTemp with
      | Except.error e => ([Act.rawHttpGet audioMsg.url], Except.error e)
      | Except.ok tempFilePath =>
        if ¬w.copyOk then
          ([Act.rawHttpGet audioMsg.url, Act.createTempFile tempFilePath],
           Except.error "failed to save audio file")
        else
          let tr := TranscribeAudioGroq env.groqApiKey (some body) tempFilePath
            WHISPER_PROMPT "pt" w.groqResp
          let acts := [Act.rawHttpGet audioMsg.url,
            Act.createTempFile tempFilePath,
            Act.writeFile tempFilePath] ++ tr.1
          match tr.2 with
          | Except.error e => (acts, Except.error e)
          | Except.ok transcription =>
            let replyText :=
              "*Transcrição automática:*\n\n_" ++ trimSpace transcription ++ "_"
            let acts := acts ++ [Act.removeFile tempFilePath,
              Act.sendReply evt.chatID replyText]
            if w.sendOk then (acts, Except.ok ())
            else (acts, Except.error "failed to send reply message")

instance {ε α : Type} [DecidableEq ε] [DecidableEq α] : DecidableEq (Except ε α) :=
  fun x y =>
  match x, y with
  | .ok a, .ok b =>
    if h : a = b then isTrue (by rw [h]) else isFalse (by simp [h])
  | .error e, .error f =>
    if h : e = f then isTrue (by rw [h]) else isFalse (by simp [h])
  | .ok _, .error _ => isFalse (by simp)
  | .error _, .ok _ => isFalse (by simp)

/-- Terminal disposition of `handleMessage` for one inbound event. -/
inductive Disposition where
  | ignoredGroup : Disposition
  | ignoredExcluded : Disposition
  | ignoredNonAudio : Disposition
  | processed (result : Except String Unit) : Disposition
deriving DecidableEq

/-- `handleMessage`: skip group messages, then excluded senders, then
non-audio messages; otherwise run `processAudioMessage`. -/
def handleMessage (excluded : List String) (env : Env) (w : World)
    (evt : Event) : List Act × Disposition :=
  if evt.isGroup then ([], Disposition.ignoredGroup)
  else if isExcluded excluded evt.senderUser then ([], Disposition.ignoredExcluded)
  else
    match evt.audio with
    | some _ =>
      let r := processAudioMessage env w evt
      (r.1, Disposition.processed r.2)
    | none => ([], Disposition.ignoredNonAudio)

/-! ## Process startup (main) -/

/-- Oracle for the effectful steps of `main` before the event loop:
the `.env`/exclusion file contents and the success of directory creation,
database open, device fetch and transport connect. -/
structure StartupWorld where
  excludeFile : Option String
  mkdirOk : Bool
  dbOk : Bool
  deviceOk : Bool
  connectOk : Bool

/-- `main` up to the event loop: create directories, load the exclusion
list, open the store, get the device, connect. `log.Fatalf` is modelled as
an error result (the process does not start). No backend credential is
read anywhere in `main`. -/
def startup (_env : Env) (w : StartupWorld) : Except String (List String) :=
  if ¬w.mkdirOk then Except.error "Failed to create directory"
  else
    let excluded := loadExcludedNumbers w.excludeFile
    if ¬w.dbOk then Except.error "Failed to connect to database"
    else if ¬w.deviceOk then Except.error "Failed to get device"
    else if ¬w.connectOk then Except.error "Failed to connect"
    else Except.ok excluded

/-! ## Concrete fixtures used by witnesses and counterexamples -/

/-- A sample environment with all backend credentials set. -/
def sampleEnv : Env := { groqApiKey := "gk", cfAccountId := "acct", cfApiKey := "cfk" }

/-- A dispatch world in which every effect succeeds and the backend
returns a 200 response with transcript "ok". -/
def sampleWorld : World :=
  { httpGet := Except.ok [1, 2, 3]
    createTemp := Except.ok "messages/audio-42-123.webm"
    copyOk := true
    groqResp := Except.ok
      { status := 200, body := "", json := some (Json.obj [("text", Json.str "ok")]) }
    sendOk := true }

/-- A dispatch world in which the backend answers 500. -/
def failWorld : World :=
  { httpGet := Except.ok [1, 2, 3]
    createTemp := Except.ok "messages/audio-42-123.webm"
    copyOk := true
    groqResp := Except.ok { status := 500, body := "internal error", json := none }
    sendOk := true }

/-- A group-origin inbound event carrying an audio message. -/
def groupEvt : Event :=
  { isGroup := true, senderUser := "5511999", chatID := "chat1"
    audio := some { url := "https://mmg.whatsapp.net/v/t62.enc", fileLength := 42 } }

/-- A direct (non-group) inbound event carrying an encrypted-media audio
message. -/
def audioEvt : Event :=
  { isGroup := false, senderUser := "5511999", chatID := "chat1"
    audio := some { url := "https://mmg.whatsapp.net/v/t62.enc", fileLength := 42 } }

/-! ## Claims -/

/-- C1: for every inbound event that is group-origin or contains no audio
message, `handleMessage` terminates with no backend call and no reply, and
its terminal disposition shows the checks in source order: group origin
first, then sender exclusion, then audio presence. -/
theorem c1_ignored_events_no_backend_no_reply
    (excluded : List String) (env : Env) (w : World) (evt : Event)
    (h : evt.isGroup = true ∨ evt.audio = none) :
    ((handleMessage excluded env w evt).1.all (fun a => !isBackendCall a)) = true
    ∧ ((handleMessage excluded env w evt).1.all (fun a => !isReply a)) = true
    ∧ (handleMessage excluded env w evt).2 =
      (if evt.isGroup then Disposition.ignoredGroup
       else if isExcluded excluded evt.senderUser then Disposition.ignoredExcluded
       else Disposition.ignoredNonAudio) := by
  rcases h with h | h
  · simp [handleMessage, h]
  · by_cases hg : evt.isGroup
    · simp [handleMessage, hg]
    · by_cases he : isExcluded excluded evt.senderUser
      · simp [handleMessage, hg, he]
      · simp [handleMessage, hg, he, h]

/-- C1 witness: a concrete group-origin audio event is ignored with an
empty action trace. -/
theorem c1_witness :
    ((handleMessage ["5511888"] sampleEnv sampleWorld groupEvt).1.all
        (fun a => !isBackendCall a)) = true
    ∧ ((handleMessage ["5511888"] sampleEnv sampleWorld groupEvt).1.all
        (fun a => !isReply a)) = true
    ∧ (handleMessage ["5511888"] sampleEnv sampleWorld groupEvt).2 =
      (if groupEvt.isGroup then Disposition.ignoredGroup
       else if isExcluded ["5511888"] groupEvt.senderUser then
         Disposition.ignoredExcluded
       else Disposition.ignoredNonAudio) :=
  c1_ignored_events_no_backend_no_reply ["5511888"] sampleEnv sampleWorld groupEvt
    (Or.inl rfl)

/-- C2: the dispatch draft retrieves encrypted media with a raw
`http.Get` on the audio message's URL and never uses the transport's
decrypting fetch — evaluated at a concrete encrypted-media audio event. -/
theorem c2_raw_get_on_encrypted_media_url :
    (processAudioMessage sampleEnv sampleWorld audioEvt).1.head? =
      some (Act.rawHttpGet "https://mmg.whatsapp.net/v/t62.enc")
    ∧ ((processAudioMessage sampleEnv sampleWorld audioEvt).1.any
        isDecryptFetch) = false := by
  exact ⟨rfl, rfl⟩

/-- C3: when the backend fails, the dispatch invocation ends with the
temporary audio file created but never removed — the removal only runs on
the success path. Evaluated at a concrete event whose transcription
request answers 500. -/
theorem c3_temp_file_leaked_on_backend_failure :
    ((processAudioMessage sampleEnv failWorld audioEvt).1.any isCreateTemp) = true
    ∧ ((processAudioMessage sampleEnv failWorld audioEvt).1.any isRemoveFile) = false
    ∧ (processAudioMessage sampleEnv failWorld audioEvt).2 =
      Except.error "transcription failed: internal error" := by
  exact ⟨rfl, rfl, rfl⟩

/-- Helper: whenever the Groq transcription step does not succeed, the
dispatch trace contains no reply (the send only happens after a
successful transcription). -/
theorem noReply_of_groq_non200 (env : Env) (w : World) (evt : Event)
    (status : Nat) (body : String) (j : Option Json)
    (hw : w.groqResp = Except.ok { status := status, body := body, json := j })
    (hstat : status ≠ 200) :
    ((processAudioMessage env w evt).1.any isReply) = false := by
  unfold processAudioMessage
  cases hA : evt.audio with
  | none => simp
  | some am =>
    cases hG : w.httpGet with
    | error e => simp [isReply]
    | ok bodyBytes =>
      cases hT : w.createTemp with
      | error e => simp [isReply]
      | ok tmp =>
        by_cases hc : w.copyOk
        · rw [hw]
          by_cases hk : env.groqApiKey = ""
          · simp [TranscribeAudioGroq, hk, hc, isReply]
          · simp [TranscribeAudioGroq, hk, hc, hstat, isReply]
        · simp [hc, isReply]

/-- C4: every non-200 response from either backend's transcription
operation yields an error carrying the response body (no transcript), and
a dispatch whose backend answers non-200 sends no reply. -/
theorem c4_non200_error_carries_body_no_reply
    (status : Nat) (body : String) (j : Option Json) (hstat : status ≠ 200)
    (apiKey : String) (hkey : apiKey ≠ "")
    (data : List Nat) (path prompt lang : String)
    (cf : CFTranscriber) (lang2 : String)
    (env : Env) (w : World) (evt : Event)
    (hw : w.groqResp = Except.ok { status := status, body := body, json := j }) :
    (TranscribeAudioGroq apiKey (some data) path prompt lang
        (Except.ok { status := status, body := body, json := j })).2 =
      Except.error ("transcription failed: " ++ body)
    ∧ (cf.Transcribe (some data) lang2
        (Except.ok { status := status, body := body, json := j })).2 =
      Except.error ("transcription failed: " ++ body)
    ∧ ((processAudioMessage env w evt).1.any isReply) = false := by
  refine ⟨?_, ?_, noReply_of_groq_non200 env w evt status body j hw hstat⟩
  · simp [TranscribeAudioGroq, hkey, hstat]
  · simp [CFTranscriber.Transcribe, hstat]

/-- C4 witness: concrete 500 responses from both backends produce errors
carrying the body, and the concrete failing dispatch sends no reply. -/
theorem c4_witness :
    (TranscribeAudioGroq "gk" (some [1, 2, 3]) "messages/a.webm" "p" "pt"
        (Except.ok { status := 500, body := "internal error", json := none })).2 =
      Except.error ("transcription failed: " ++ "internal error")
    ∧ ((NewCFTranscriber "acct" "tok" "" "").Transcribe (some [1, 2, 3]) "pt"
        (Except.ok { status := 500, body := "internal error", json := none })).2 =
      Except.error ("transcription failed: " ++ "internal error")
    ∧ ((processAudioMessage sampleEnv failWorld audioEvt).1.any isReply) = false :=
  c4_non200_error_carries_body_no_reply 500 "internal error" none (by decide)
    "gk" (by decide) [1, 2, 3] "messages/a.webm" "p" "pt"
    (NewCFTranscriber "acct" "tok" "" "") "pt" sampleEnv failWorld audioEvt rfl

/-- C5: a Cloudflare 200 response whose body is
`\x7b"result":\x7b"text":t\x7d\x7d` makes `CfTranscribe` return `t`, and a
200 body whose result object lacks a string `text` field yields the
response-shape error instead of a crash. -/
theorem c5_cf_result_text_extraction
    (acct tok : String) (hacct : acct ≠ "") (htok : tok ≠ "")
    (model : String) (data : List Nat) (body1 body2 t : String) :
    (CfTranscribe acct tok model "pt" (some data)
        (Except.ok ⟨200, body1,
          some (Json.obj [("result", Json.obj [("text", Json.str t)])])⟩)).2 =
      Except.ok t
    ∧ (CfTranscribe acct tok model "pt" (some data)
        (Except.ok ⟨200, body2, some (Json.obj [("result", Json.obj [])])⟩)).2 =
      Except.error "transcription text not found in response" := by
  constructor
  · simp [CfTranscribe, hacct, htok, CFTranscriber.Transcribe, jsonLookup,
      List.lookup]
  · simp [CfTranscribe, hacct, htok, CFTranscriber.Transcribe, jsonLookup,
      List.lookup]

/-- C5 witness: concrete extraction of "hello" and concrete shape error. -/
theorem c5_witness :
    (CfTranscribe "acct" "tok" "" "pt" (some [1])
        (Except.ok ⟨200, "b1",
          some (Json.obj [("result", Json.obj [("text", Json.str "hello")])])⟩)).2 =
      Except.ok "hello"
    ∧ (CfTranscribe "acct" "tok" "" "pt" (some [1])
        (Except.ok ⟨200, "b2", some (Json.obj [("result", Json.obj [])])⟩)).2 =
      Except.error "transcription text not found in response" :=
  c5_cf_result_text_extraction "acct" "tok" (by decide) (by decide) "" [1]
    "b1" "b2" "hello"

/-- C6: a sender identifier is excluded exactly when it appears, after
trimming, as a non-blank line of the exclusion source file; in particular
every lookup returns false when the file is absent (empty loaded set). -/
theorem c6_exclusion_lookup (fileContent : Option String) (sender : String) :
    isExcluded (loadExcludedNumbers fileContent) sender = true ↔
      ∃ line ∈ fileLines fileContent, trimSpace line = sender ∧ sender ≠ "" := by
  simp only [isExcluded, loadExcludedNumbers, List.elem_eq_mem,
    List.mem_filter, List.mem_map, decide_eq_true_eq]
  constructor
  · rintro ⟨⟨line, hline, rfl⟩, hne⟩
    exact ⟨line, hline, rfl, hne⟩
  · rintro ⟨line, hline, rfl, hne⟩
    exact ⟨⟨line, hline, rfl⟩, hne⟩

/-- C7: on a successful dispatch, the reply sent to the conversation is
exactly the fixed template — bold label, blank line, italicized body —
applied to the transcript with surrounding whitespace trimmed. -/
theorem c7_reply_is_trimmed_template
    (env : Env) (w : World) (evt : Event) (am : AudioMessage)
    (data : List Nat) (tmp body t : String)
    (hA : evt.audio = some am)
    (hG : w.httpGet = Except.ok data)
    (hT : w.createTemp = Except.ok tmp)
    (hc : w.copyOk = true)
    (hk : env.groqApiKey ≠ "")
    (hr : w.groqResp = Except.ok ⟨200, body, some (Json.obj [("text", Json.str t)])⟩) :
    processAudioMessage env w evt =
      ([Act.rawHttpGet am.url, Act.createTempFile tmp, Act.writeFile tmp,
        Act.postMultipart groqEndpoint
          (buildGroqForm data (baseName tmp) WHISPER_PROMPT "pt"),
        Act.removeFile tmp,
        Act.sendReply evt.chatID
          ("*Transcrição automática:*\n\n_" ++ trimSpace t ++ "_")],
       if w.sendOk then Except.ok () else Except.error "failed to send reply message") := by
  by_cases hs : w.sendOk <;>
    simp [processAudioMessage, hA, hG, hT, hc, TranscribeAudioGroq, hk, hr,
      groqDecode, List.lookup, hs]

/-- A dispatch world whose backend answers 200 with the untrimmed
transcript "  oi  ". -/
def oiWorld : World :=
  { httpGet := Except.ok [1, 2, 3]
    createTemp := Except.ok "messages/audio-42-123.webm"
    copyOk := true
    groqResp := Except.ok
      { status := 200, body := ""
        json := some (Json.obj [("text", Json.str "  oi  ")]) }
    sendOk := true }

/-- C7 witness: a backend transcript of "  oi  " yields the concrete reply
body "oi" with no surrounding whitespace. -/
theorem c7_witness :
    processAudioMessage sampleEnv oiWorld audioEvt =
      ([Act.rawHttpGet "https://mmg.whatsapp.net/v/t62.enc",
        Act.createTempFile "messages/audio-42-123.webm",
        Act.writeFile "messages/audio-42-123.webm",
        Act.postMultipart groqEndpoint
          (buildGroqForm [1, 2, 3] "audio-42-123.webm" WHISPER_PROMPT "pt"),
        Act.removeFile "messages/audio-42-123.webm",
        Act.sendReply "chat1" "*Transcrição automática:*\n\n_oi_"],
       Except.ok ()) := by
  exact c7_reply_is_trimmed_template sampleEnv oiWorld audioEvt
    ⟨"https://mmg.whatsapp.net/v/t62.enc", 42⟩ [1, 2, 3]
    "messages/audio-42-123.webm" "" "  oi  " rfl rfl rfl rfl (by decide) rfl

/-! ## C8 fixtures: startup with missing credentials -/

/-- An environment with every backend credential unset. -/
def emptyCredsEnv : Env := { groqApiKey := "", cfAccountId := "", cfApiKey := "" }

/-- A startup world in which every bootstrap step succeeds. -/
def okStartupWorld : StartupWorld :=
  { excludeFile := some "5511\n", mkdirOk := true, dbOk := true
    deviceOk := true, connectOk := true }

/-- C8 counterexample: with every backend credential missing, startup
still succeeds (the process starts), and the missing key is first
discovered inside an individual transcription call, which returns the
configuration error. This refutes the claim that credential absence is a
fatal startup error. -/
theorem c8_counterexample_startup_ignores_credentials :
    startup emptyCredsEnv okStartupWorld = Except.ok ["5511"]
    ∧ (TranscribeAudioGroq "" (some [0]) "a.ogg" "p" "pt"
        (Except.ok ⟨200, "", some (Json.obj [("text", Json.str "x")])⟩)).2 =
      Except.error "GROQ_API_KEY not set in environment"
    ∧ (CfTranscribe "" "" "" "pt" (some [0])
        (Except.ok ⟨200, "",
          some (Json.obj [("result", Json.obj [("text", Json.str "x")])])⟩)).2 =
      Except.error "please set CF_ACCOUNT_ID and CF_API_KEY environment variables" := by
  refine ⟨rfl, rfl, rfl⟩

/-- C8 amended: startup never reads the backend credentials (it behaves
identically for every environment), and a missing credential is instead
detected inside each transcription call, which performs no backend POST
and returns a configuration error. -/
theorem c8_amended_call_time_credential_check
    (e₁ e₂ : Env) (w : StartupWorld)
    (fd : Option (List Nat)) (path prompt lang : String)
    (resp : Except String HttpResp)
    (acct tok model lang2 : String) (fd2 : Option (List Nat))
    (resp2 : Except String HttpResp)
    (h : acct = "" ∨ tok = "") :
    startup e₁ w = startup e₂ w
    ∧ TranscribeAudioGroq "" fd path prompt lang resp =
      ([], Except.error "GROQ_API_KEY not set in environment")
    ∧ CfTranscribe acct tok model lang2 fd2 resp2 =
      ([], Except.error "please set CF_ACCOUNT_ID and CF_API_KEY environment variables") := by
  refine ⟨rfl, rfl, ?_⟩
  unfold CfTranscribe
  rw [if_pos h]

/-- C8 amended witness: concrete empty credentials at a concrete startup
world and concrete call arguments. -/
theorem c8_amended_witness :
    startup emptyCredsEnv okStartupWorld = startup sampleEnv okStartupWorld
    ∧ TranscribeAudioGroq "" (some [0]) "a.ogg" "p" "pt"
        (Except.ok ⟨200, "", some (Json.obj [("text", Json.str "x")])⟩) =
      ([], Except.error "GROQ_API_KEY not set in environment")
    ∧ CfTranscribe "" "tok" "" "pt" (some [0])
        (Except.ok ⟨200, "",
          some (Json.obj [("result", Json.obj [("text", Json.str "x")])])⟩) =
      ([], Except.error "please set CF_ACCOUNT_ID and CF_API_KEY environment variables") :=
  c8_amended_call_time_credential_check emptyCredsEnv sampleEnv okStartupWorld
    (some [0]) "a.ogg" "p" "pt"
    (Except.ok ⟨200, "", some (Json.obj [("text", Json.str "x")])⟩)
    "" "tok" "" "pt" (some [0])
    (Except.ok ⟨200, "",
      some (Json.obj [("result", Json.obj [("text", Json.str "x")])])⟩)
    (Or.inl rfl)

/-- Helper: membership characterization of the Groq multipart form. -/
theorem mem_buildGroqForm (data : List Nat) (fn prompt lang : String)
    (part : FormPart) :
    part ∈ buildGroqForm data fn prompt lang ↔
      (part = FormPart.file "file" fn data
       ∨ part = FormPart.field "model" "whisper-large-v3"
       ∨ (prompt ≠ "" ∧ part = FormPart.field "prompt" prompt)
       ∨ (lang ≠ "" ∧ part = FormPart.field "language" lang)
       ∨ part = FormPart.field "response_format" "json"
       ∨ part = FormPart.field "temperature" "0.0") := by
  by_cases hp : prompt = "" <;> by_cases hl : lang = "" <;>
    simp [buildGroqForm, hp, hl]

/-- C9: every Groq Transcribe invocation posts exactly one multipart form
containing the file part with the raw bytes and source filename, the
fixed model "whisper-large-v3", response_format "json", temperature
"0.0", a prompt field exactly when the prompt is non-empty, and a
language field exactly when the language is non-empty. -/
theorem c9_groq_multipart_fields
    (apiKey : String) (hk : apiKey ≠ "") (data : List Nat)
    (path prompt lang : String) (resp : Except String HttpResp) :
    (TranscribeAudioGroq apiKey (some data) path prompt lang resp).1 =
      [Act.postMultipart groqEndpoint
        (buildGroqForm data (baseName path) prompt lang)]
    ∧ FormPart.file "file" (baseName path) data ∈
        buildGroqForm data (baseName path) prompt lang
    ∧ FormPart.field "model" "whisper-large-v3" ∈
        buildGroqForm data (baseName path) prompt lang
    ∧ FormPart.field "response_format" "json" ∈
        buildGroqForm data (baseName path) prompt lang
    ∧ FormPart.field "temperature" "0.0" ∈
        buildGroqForm data (baseName path) prompt lang
    ∧ ((∃ p, FormPart.field "prompt" p ∈
        buildGroqForm data (baseName path) prompt lang) ↔ prompt ≠ "")
    ∧ (∀ p, FormPart.field "prompt" p ∈
        buildGroqForm data (baseName path) prompt lang → p = prompt)
    ∧ ((∃ l, FormPart.field "language" l ∈
        buildGroqForm data (baseName path) prompt lang) ↔ lang ≠ "")
    ∧ (∀ l, FormPart.field "language" l ∈
        buildGroqForm data (baseName path) prompt lang → l = lang) := by
  refine ⟨?_, ?_, ?_, ?_, ?_, ?_, ?_, ?_, ?_⟩
  · cases resp with
    | error e => simp [TranscribeAudioGroq, hk]
    | ok r =>
      by_cases hs : r.status = 200
      · cases hj : r.json with
        | none => simp [TranscribeAudioGroq, hk, hs, hj]
        | some j => simp [TranscribeAudioGroq, hk, hs, hj]
      · simp [TranscribeAudioGroq, hk, hs]
  · simp [mem_buildGroqForm]
  · simp [mem_buildGroqForm]
  · simp [mem_buildGroqForm]
  · simp [mem_buildGroqForm]
  · constructor
    · rintro ⟨p, hp⟩
      rcases (mem_buildGroqForm _ _ _ _ _).1 hp with h | h | ⟨hne, h⟩ | ⟨hne, h⟩ | h | h <;>
        simp_all
    · intro hne
      exact ⟨prompt, (mem_buildGroqForm _ _ _ _ _).2 (by tauto)⟩
  · intro p hp
    rcases (mem_buildGroqForm _ _ _ _ _).1 hp with h | h | ⟨hne, h⟩ | ⟨hne, h⟩ | h | h <;>
      simp_all
  · constructor
    · rintro ⟨l, hl⟩
      rcases (mem_buildGroqForm _ _ _ _ _).1 hl with h | h | ⟨hne, h⟩ | ⟨hne, h⟩ | h | h <;>
        simp_all
    · intro hne
      exact ⟨lang, (mem_buildGroqForm _ _ _ _ _).2 (by tauto)⟩
  · intro l hl
    rcases (mem_buildGroqForm _ _ _ _ _).1 hl with h | h | ⟨hne, h⟩ | ⟨hne, h⟩ | h | h <;>
      simp_all

/-- C9 witness: a concrete invocation with non-empty prompt and language
posts the form with all fixed fields and both optional fields. -/
theorem c9_witness :
    (TranscribeAudioGroq "gk" (some [1, 2, 3]) "messages/a.webm" "p" "pt"
        (Except.ok ⟨200, "", some (Json.obj [("text", Json.str "x")])⟩)).1 =
      [Act.postMultipart groqEndpoint
        (buildGroqForm [1, 2, 3] (baseName "messages/a.webm") "p" "pt")]
    ∧ FormPart.file "file" (baseName "messages/a.webm") [1, 2, 3] ∈
        buildGroqForm [1, 2, 3] (baseName "messages/a.webm") "p" "pt"
    ∧ FormPart.field "model" "whisper-large-v3" ∈
        buildGroqForm [1, 2, 3] (baseName "messages/a.webm") "p" "pt"
    ∧ FormPart.field "response_format" "json" ∈
        buildGroqForm [1, 2, 3] (baseName "messages/a.webm") "p" "pt"
    ∧ FormPart.field "temperature" "0.0" ∈
        buildGroqForm [1, 2, 3] (baseName "messages/a.webm") "p" "pt"
    ∧ ((∃ p, FormPart.field "prompt" p ∈
        buildGroqForm [1, 2, 3] (baseName "messages/a.webm") "p" "pt") ↔ ("p" : String) ≠ "")
    ∧ (∀ p, FormPart.field "prompt" p ∈
        buildGroqForm [1, 2, 3] (baseName "messages/a.webm") "p" "pt" → p = "p")
    ∧ ((∃ l, FormPart.field "language" l ∈
        buildGroqForm [1, 2, 3] (baseName "messages/a.webm") "p" "pt") ↔ ("pt" : String) ≠ "")
    ∧ (∀ l, FormPart.field "language" l ∈
        buildGroqForm [1, 2, 3] (baseName "messages/a.webm") "p" "pt" → l = "pt") :=
  c9_groq_multipart_fields "gk" (by decide) [1, 2, 3] "messages/a.webm" "p" "pt"
    (Except.ok ⟨200, "", some (Json.obj [("text", Json.str "x")])⟩)

/-- C10: the language field of the Cloudflare request payload comes from
the per-call argument (defaulted to "en" when empty); the Language stored
in the transcriber configuration is never written into the payload, and a
call with an empty language argument posts a payload whose language field
is "en". -/
theorem c10_cf_language_from_call_argument
    (cf : CFTranscriber) (L enc lang : String) (data : List Nat)
    (resp : Except String HttpResp) :
    (cfPayload cf enc lang).lookup "language" =
      some (Json.str (if lang = "" then "en" else lang))
    ∧ cfPayload { cf with Language := L } enc lang = cfPayload cf enc lang
    ∧ (CFTranscriber.Transcribe cf (some data) "" resp).1 =
      [Act.postJson cf.BaseURL (cfPayload cf (base64Encode data) "")]
    ∧ (cfPayload cf (base64Encode data) "").lookup "language" =
      some (Json.str "en") := by
  refine ⟨?_, rfl, ?_, ?_⟩
  · simp [cfPayload, List.lookup]
  · cases resp with
    | error e => simp [CFTranscriber.Transcribe]
    | ok r =>
      by_cases hs : r.status = 200
      · cases hj : r.json with
        | none => simp [CFTranscriber.Transcribe, hs, hj]
        | some j => cases j <;> simp [CFTranscriber.Transcribe, hs, hj]
      · simp [CFTranscriber.Transcribe, hs]
  · simp [cfPayload, List.lookup]
